import Mathlib

/-!
Verification development for the next-action pre-generation handler and the
prompt-template editor of the review-and-assessment repository.

The backend handler `preGenerateNextAction` is an async function over a
Prisma-backed database.  We embed it shallowly: the database is an explicit
input (association lists of rows), each `update` call is recorded as a
`JobWrite`, and a JavaScript runtime exception is an `Except.error`.  The
`JSON.parse` library call is modelled as an oracle parameter
`parse : String → Option JsonValue` (`none` = parse throws).  `console.log`
and `updatedAt := new Date()` have no observable effect on the modelled
state beyond the status writes and are dropped.
-/

namespace Rapid

/-- JavaScript/JSON runtime values, as far as this code inspects them.
`jnull` stands for both `null` and `undefined` (the code distinguishes them
nowhere).  Numbers are modelled as rationals. -/
inductive JsonValue where
  | jnull : JsonValue
  | jbool : Bool → JsonValue
  | jnum : Rat → JsonValue
  | jstr : String → JsonValue
  | jarr : List JsonValue → JsonValue
  | jobj : List (String × JsonValue) → JsonValue

/-- JavaScript truthiness of a value (`if (x)`). -/
def jsTruthy : JsonValue → Bool
  | .jnull => false
  | .jbool b => b
  | .jnum q => decide (q ≠ 0)
  | .jstr s => decide (s ≠ "")
  | .jarr _ => true
  | .jobj _ => true

/-- Embeds `x.isNull` as a boolean test, for hypotheses that need decidability. -/
def JsonValue.isNull : JsonValue → Bool
  | .jnull => true
  | _ => false

/-- Embeds `typeof x === "string"` as a boolean test. -/
def JsonValue.isStr : JsonValue → Bool
  | .jstr _ => true
  | _ => false

/-- Embeds `Array.isArray(x)` as a boolean test. -/
def JsonValue.isArr : JsonValue → Bool
  | .jarr _ => true
  | _ => false

/-- Being a plain object, as a boolean test. -/
def JsonValue.isObj : JsonValue → Bool
  | .jobj _ => true
  | _ => false

/-- Property read `o[k]` on an object's field list (`none` = field absent,
i.e. `undefined`). -/
def getField (fields : List (String × JsonValue)) (k : String) : Option JsonValue :=
  (fields.find? (fun p => p.1 == k)).map (fun p => p.2)

/-- Embeds `NEXT_ACTION_STATUS` enumeration from the review domain model. -/
inductive NEXT_ACTION_STATUS where
  | PENDING | PROCESSING | COMPLETED | FAILED | SKIPPED
deriving DecidableEq

/-- One `db.reviewJob.update` call: the job id in the `where` clause and the
`nextActionStatus` written (the accompanying `updatedAt := new Date()` is
the ambient clock and carries no information). -/
structure JobWrite where
  jobId : String
  status : NEXT_ACTION_STATUS
deriving DecidableEq

/-- Embeds `checkListSet` row fields read by the handler. -/
structure CheckListSet where
  enableNextAction : Bool
  nextActionTemplateId : Option String
deriving DecidableEq

/-- A document row (`select { id, filename }`). -/
structure Document where
  id : String
  filename : String
deriving DecidableEq

/-- A review-job row with its included `checkListSet` and `documents`. -/
structure ReviewJob where
  id : String
  checkListSet : CheckListSet
  documents : List Document
  nextActionStatus : NEXT_ACTION_STATUS
deriving DecidableEq

/-- A prompt-template row, as read by the handler. -/
structure PromptTemplate where
  id : String
  prompt : String
  toolConfigurationId : Option String
deriving DecidableEq

/-- Embeds `parent: { select: { name } }` of a check-list item. -/
structure DBParent where
  name : String
deriving DecidableEq

/-- The `checkList` selection included with each review result. -/
structure DBCheckList where
  id : String
  name : String
  description : Option String
  parent : Option DBParent
deriving DecidableEq

/-- A review-result row.  `sourceReferences` is an untyped JSON column and is
kept as a raw `JsonValue`.  `confidenceScore` is a nullable number. -/
structure ReviewResult where
  reviewJobId : String
  checkList : DBCheckList
  result : Option String
  userOverride : Bool
  explanation : Option String
  extractedText : Option String
  confidenceScore : Option Rat
  userComment : Option String
  sourceReferences : JsonValue

/-- Embeds `KnowledgeBaseConfig` from the handler's interfaces. -/
structure KnowledgeBaseConfig where
  knowledgeBaseId : String
  description : Option String
deriving DecidableEq

/-- Embeds `McpServerConfig` from the handler's interfaces. -/
structure McpServerConfig where
  command : String
  args : List String
  env : Option (List (String × String))
deriving DecidableEq

/-- The `mcpConfig` wrapper holding MCP servers. -/
structure McpConfig where
  mcpServers : List McpServerConfig
deriving DecidableEq

/-- A tool-configuration row as returned by the repository's `findById`. -/
structure ToolConfiguration where
  id : String
  name : String
  knowledgeBase : Option (List KnowledgeBaseConfig)
  codeInterpreter : Bool
  mcpConfig : Option McpConfig
deriving DecidableEq

/-- Embeds `ToolConfigurationOutput`: the agent-compatible shape built by step 7;
optional fields are present only when the source configuration enables them. -/
structure ToolConfigurationOutput where
  id : String
  name : String
  knowledgeBase : Option (List KnowledgeBaseConfig)
  codeInterpreter : Option Bool
  mcpConfig : Option McpConfig
deriving DecidableEq

/-- The database visible to the handler, modelled as explicit row lists. -/
structure DB where
  reviewJobs : List ReviewJob
  promptTemplates : List PromptTemplate
  reviewResults : List ReviewResult
  toolConfigs : List ToolConfiguration

/-- Embeds `db.reviewJob.findUnique({ where: { id } })`. -/
def findJob (db : DB) (id : String) : Option ReviewJob :=
  db.reviewJobs.find? (fun j => j.id == id)

/-- Embeds `db.promptTemplate.findUnique({ where: { id } })`. -/
def findTemplate (db : DB) (id : String) : Option PromptTemplate :=
  db.promptTemplates.find? (fun t => t.id == id)

/-- Embeds `toolConfigRepo.findById(id)`; `none` models the call throwing (for any
reason, e.g. the row is missing). -/
def findToolConfig (db : DB) (id : String) : Option ToolConfiguration :=
  db.toolConfigs.find? (fun c => c.id == id)

/-- Embeds `db.reviewResult.findMany({ where: { reviewJobId } })`, preserving the
database's row order. -/
def findResults (db : DB) (reviewJobId : String) : List ReviewResult :=
  db.reviewResults.filter (fun r => r.reviewJobId == reviewJobId)

/-- Parameters of the handler. -/
structure PreGenerateNextActionParams where
  reviewJobId : String
  userId : Option String
deriving DecidableEq

/-- An entry of `templateData.allResults`: a `SourceReference` after the
`documentId → filename` resolution.  The TS annotation says `pageNumber` is
`number | null`, but the code copies whatever non-nullish runtime value the
element's `pageNumber` property holds, so we keep it as a raw `JsonValue`
(`none` = `null`). -/
structure SourceReference where
  filename : String
  pageNumber : Option JsonValue

/-- Embeds `EnrichedReviewResult.checkList` shape. -/
structure EnrichedCheckList where
  name : String
  description : Option String
  parentName : Option String
deriving DecidableEq

/-- One element of `templateData.allResults`. -/
structure EnrichedReviewResult where
  checkList : EnrichedCheckList
  result : Option String
  userOverride : Bool
  explanation : Option String
  extractedText : Option String
  confidenceScore : Option Rat
  userComment : Option String
  sourceReferences : List SourceReference

/-- Embeds `TemplateData` passed to the agent. -/
structure TemplateData where
  allResults : List EnrichedReviewResult

/-- Embeds `promptTemplate: { prompt: string }` in the handler's result. -/
structure PromptOut where
  prompt : String
deriving DecidableEq

/-- Embeds `PreGenerateNextActionResult`; optional TS fields become `Option`s. -/
structure PreGenerateNextActionResult where
  shouldGenerate : Bool
  promptTemplate : Option PromptOut
  templateData : Option TemplateData
  toolConfiguration : Option ToolConfigurationOutput
  message : Option String

/-- Embeds `DEFAULT_NEXT_ACTION_PROMPT`, verbatim from the handler. -/
def DEFAULT_NEXT_ACTION_PROMPT : String :=
  "\nYou are an AI assistant that generates concise, actionable next steps based on document review results.\n\n## Review Results\n{{all_results}}\n\n## Output Format\nGenerate a markdown-formatted response. For each failed item, output in this format:\n\n1. **[Check item name]**\n   - Location: [filename, page number]\n   - Action: [Concrete action to take]\n\n## Guidelines\n- Use heading level 3 (###) or lower - never use h1 or h2\n- Be concise - one item per failed check\n- Specify the exact location (filename, page number)\n- Provide concrete action, not general advice\n- Do NOT include general improvement suggestions\n- Do NOT include warnings or disclaimers\n- IMPORTANT: Output ENTIRELY in the same language as the input document\n"

/-- Embeds `new Map(reviewJob.documents.map(doc => [doc.id, doc.filename])).get(k)`:
with duplicate ids the later entry wins, as for a JS `Map`. -/
def docMapGet (documents : List Document) (k : String) : Option String :=
  (documents.reverse.find? (fun d => d.id == k)).map (fun d => d.filename)

/-- Embeds `filename` of one resolved reference.  Reading `.documentId` from `null`
(or `undefined`) throws a `TypeError`; on any other non-object the property
is `undefined`, hence falsy, hence `"Unknown"`.  A truthy string id is looked
up in the document map and the result passes through `|| "Unknown"`, so a
missing key, a non-string key, and an empty-string filename all give
`"Unknown"`. -/
def objFilename (documents : List Document)
    (fields : List (String × JsonValue)) : String :=
  match getField fields "documentId" with
  | some d =>
    if jsTruthy d then
      match d with
      | .jstr s =>
        match docMapGet documents s with
        | some f => if f = "" then "Unknown" else f
        | none => "Unknown"
      | _ => "Unknown"
    else "Unknown"
  | none => "Unknown"

/-- See `objFilename` for the object case; reading a property of `null` (or
`undefined`) throws. -/
def refFilename (documents : List Document) (v : JsonValue) : Except String String :=
  match v with
  | .jnull => .error "TypeError"
  | .jobj fields => .ok (objFilename documents fields)
  | _ => .ok "Unknown"

/-- Embeds `ref.pageNumber ?? null`: `null` when the property is absent or nullish,
the raw property value otherwise.  On a non-object the property is
`undefined` (the `null` `TypeError` case is already raised by `refFilename`,
which the object literal evaluates first). -/
def refPageNumber (v : JsonValue) : Option JsonValue :=
  match v with
  | .jobj fields =>
    match getField fields "pageNumber" with
    | none => none
    | some .jnull => none
    | some x => some x
  | _ => none

/-- One element of the `parsed.map(...)` callback in
`resolveSourceReferences`. -/
def resolveRef (documents : List Document) (v : JsonValue) : Except String SourceReference :=
  match refFilename documents v with
  | .error e => .error e
  | .ok f => .ok { filename := f, pageNumber := refPageNumber v }

/-- Embeds `Array.prototype.map` where the callback may throw: the first exception
propagates. -/
def mapExcept (f : α → Except ε β) : List α → Except ε (List β)
  | [] => .ok []
  | x :: xs =>
    match f x with
    | .error e => .error e
    | .ok y =>
      match mapExcept f xs with
      | .error e => .error e
      | .ok ys => .ok (y :: ys)

/-- Embeds `resolveSourceReferences` from the handler, over the document map of the
job.  `parse` is the `JSON.parse` oracle (`none` = the parse throws, which
the code catches). -/
def resolveSourceReferences (parse : String → Option JsonValue)
    (documents : List Document) (refs : JsonValue) :
    Except String (List SourceReference) :=
  if jsTruthy refs = false then .ok []
  else
    match (match refs with | .jstr s => parse s | v => some v) with
    | none => .ok []
    | some (.jarr xs) => mapExcept (resolveRef documents) xs
    | some _ => .ok []

/-- Building one element of `templateData.allResults` from a review-result
row (step 6 of the handler). -/
def enrichResult (parse : String → Option JsonValue) (documents : List Document)
    (item : ReviewResult) : Except String EnrichedReviewResult :=
  match resolveSourceReferences parse documents item.sourceReferences with
  | .error e => .error e
  | .ok refs =>
    .ok { checkList :=
            { name := item.checkList.name
              description := item.checkList.description
              parentName := item.checkList.parent.map DBParent.name }
          result := item.result
          userOverride := item.userOverride
          explanation := item.explanation
          extractedText := item.extractedText
          confidenceScore := item.confidenceScore
          userComment := item.userComment
          sourceReferences := refs }

/-- Step 7 of the handler: the agent-compatible transform of a fetched tool
configuration. -/
def transformToolConfig (config : ToolConfiguration) : ToolConfigurationOutput :=
  { id := config.id
    name := config.name
    knowledgeBase :=
      match config.knowledgeBase with
      | some kb => if kb.length ≠ 0 then some kb else none
      | none => none
    codeInterpreter := if config.codeInterpreter then some true else none
    mcpConfig :=
      match config.mcpConfig with
      | some mc => if mc.mcpServers.length ≠ 0 then some mc else none
      | none => none }

/-- Step 7 of the handler as a whole.  `if (toolConfigurationId)` is a
truthiness test, so both an unresolved id and the empty string skip the
fetch and leave `toolConfiguration` undefined; `undefined` also results
when `findById` throws (the catch block continues without a
configuration); otherwise the fetched configuration is transformed. -/
def toolConfigOutcome (db : DB) (toolConfigurationId : Option String) :
    Option ToolConfigurationOutput :=
  match toolConfigurationId with
  | none => none
  | some tcid =>
    if tcid = "" then none
    else
      match findToolConfig db tcid with
      | none => none
      | some config => some (transformToolConfig config)

/-- Steps 5–7 of the handler, shared by the custom-template and
default-prompt paths: fetch the review results, build `templateData`
(propagating a thrown `TypeError`), fetch and transform the tool
configuration when an id was resolved, and assemble the success result. -/
def successAfterTemplate (parse : String → Option JsonValue) (db : DB)
    (reviewJobId : String) (documents : List Document)
    (promptToUse : String) (toolConfigurationId : Option String) :
    Except String PreGenerateNextActionResult :=
  match mapExcept (enrichResult parse documents) (findResults db reviewJobId) with
  | .error e => .error e
  | .ok allResults =>
    .ok { shouldGenerate := true
          promptTemplate := some { prompt := promptToUse }
          templateData := some { allResults := allResults }
          toolConfiguration := toolConfigOutcome db toolConfigurationId
          message := none }

/-- Result of the early `Review job not found` return. -/
def notFoundResult : PreGenerateNextActionResult :=
  { shouldGenerate := false, promptTemplate := none, templateData := none
    toolConfiguration := none, message := some "Review job not found" }

/-- Result of the `Next Action is disabled` return. -/
def disabledResult : PreGenerateNextActionResult :=
  { shouldGenerate := false, promptTemplate := none, templateData := none
    toolConfiguration := none, message := some "Next Action is disabled" }

/-- Result of the `Prompt template not found` return. -/
def templateNotFoundResult : PreGenerateNextActionResult :=
  { shouldGenerate := false, promptTemplate := none, templateData := none
    toolConfiguration := none, message := some "Prompt template not found" }

/-- Steps 3–7 of the handler (the enabled case, after the `PROCESSING`
status write): resolve the prompt template per step 4 — note
`if (nextActionTemplateId)` is a truthiness test, so the empty string takes
the default-prompt branch — and continue with `successAfterTemplate`.  The
second component is the ordered write list, starting with the `PROCESSING`
update. -/
def afterEnabled (parse : String → Option JsonValue) (db : DB)
    (reviewJobId : String) (reviewJob : ReviewJob) :
    Except String PreGenerateNextActionResult × List JobWrite :=
  match reviewJob.checkListSet.nextActionTemplateId with
  | some tid =>
    if tid = "" then
      (successAfterTemplate parse db reviewJobId reviewJob.documents
         DEFAULT_NEXT_ACTION_PROMPT none,
       [⟨reviewJobId, .PROCESSING⟩])
    else
      match findTemplate db tid with
      | none =>
        (.ok templateNotFoundResult,
         [⟨reviewJobId, .PROCESSING⟩, ⟨reviewJobId, .FAILED⟩])
      | some template =>
        (successAfterTemplate parse db reviewJobId reviewJob.documents
           template.prompt template.toolConfigurationId,
         [⟨reviewJobId, .PROCESSING⟩])
  | none =>
    (successAfterTemplate parse db reviewJobId reviewJob.documents
       DEFAULT_NEXT_ACTION_PROMPT none,
     [⟨reviewJobId, .PROCESSING⟩])

/-- Embeds `preGenerateNextAction` itself.  The returned pair is the function's
outcome (`Except.error` = the promise rejects with an uncaught `TypeError`)
together with the ordered list of `reviewJob.update` calls issued before
returning. -/
def preGenerateNextAction (parse : String → Option JsonValue) (db : DB)
    (params : PreGenerateNextActionParams) :
    Except String PreGenerateNextActionResult × List JobWrite :=
  match findJob db params.reviewJobId with
  | none => (.ok notFoundResult, [])
  | some reviewJob =>
    if reviewJob.checkListSet.enableNextAction = false then
      (.ok disabledResult, [⟨params.reviewJobId, .SKIPPED⟩])
    else
      afterEnabled parse db params.reviewJobId reviewJob

/-- Effect of one recorded write on the database. -/
def applyWrite (db : DB) (w : JobWrite) : DB :=
  { db with reviewJobs := db.reviewJobs.map (fun j =>
      if j.id == w.jobId then { j with nextActionStatus := w.status } else j) }

/-- Effect of a write sequence on the database. -/
def applyWrites (db : DB) (ws : List JobWrite) : DB :=
  ws.foldl applyWrite db

/-! ## Frontend: `PromptTemplateEditor.handleSubmit` -/

/-- Embeds `PromptTemplateType` from the frontend types. -/
inductive PromptTemplateType where
  | CHECKLIST | REVIEW | NEXT_ACTION
deriving DecidableEq

/-- The editor state read by `handleSubmit`: the controlled form fields.
`toolConfigurationId` is `string | undefined` (`none` = no selection). -/
structure EditorState where
  name : String
  description : String
  prompt : String
  toolConfigurationId : Option String
deriving DecidableEq

/-- Embeds `UpdatePromptTemplateRequest` as built by `handleSubmit`.  The outer
`Option` of `toolConfigurationId` is presence of the field (`none` =
`undefined`), the inner one is nullability (`some none` = `null`). -/
structure UpdatePromptTemplateRequest where
  name : String
  description : String
  prompt : String
  toolConfigurationId : Option (Option String)
deriving DecidableEq

/-- The payload `handleSubmit` passes to `onSave`: for the `NEXT_ACTION`
type the selected id with `?? null` applied, `undefined` for every other
type. -/
def handleSubmit (type : PromptTemplateType) (st : EditorState) :
    UpdatePromptTemplateRequest :=
  { name := st.name
    description := st.description
    prompt := st.prompt
    toolConfigurationId :=
      if type = PromptTemplateType.NEXT_ACTION then some st.toolConfigurationId
      else none }

/-! ## Concrete fixtures for witnesses and counterexamples -/

/-- A `JSON.parse` oracle that always throws, for inputs that never reach a
parse. -/
def parseNone : String → Option JsonValue := fun _ => none

/-- A job whose check-list set has next actions disabled. -/
def dbDisabled : DB :=
  { reviewJobs := [⟨"j1", ⟨false, none⟩, [], .PENDING⟩]
    promptTemplates := [], reviewResults := [], toolConfigs := [] }

/-- A job with next actions enabled and an empty-string template id; a
template whose id is the empty string exists with a custom prompt. -/
def dbEmptyTid : DB :=
  { reviewJobs := [⟨"j2", ⟨true, some ""⟩, [], .PENDING⟩]
    promptTemplates := [⟨"", "CUSTOM", none⟩]
    reviewResults := [], toolConfigs := [] }

/-- A job with next actions enabled and an empty-string template id, with no
prompt template in the database at all. -/
def dbEmptyTidNoTpl : DB :=
  { reviewJobs := [⟨"j2a", ⟨true, some ""⟩, [], .PENDING⟩]
    promptTemplates := [], reviewResults := [], toolConfigs := [] }

/-- A job with next actions enabled and a custom template that exists. -/
def dbCustom : DB :=
  { reviewJobs := [⟨"j4", ⟨true, some "t4"⟩, [], .PENDING⟩]
    promptTemplates := [⟨"t4", "P4", none⟩]
    reviewResults := [], toolConfigs := [] }

/-- The result of running the handler on `dbCustom` for job `j4`. -/
def resC4 : PreGenerateNextActionResult :=
  { shouldGenerate := true, promptTemplate := some ⟨"P4"⟩
    templateData := some ⟨[]⟩, toolConfiguration := none, message := none }

/-- A job with next actions enabled and a dangling template id. -/
def dbDangling : DB :=
  { reviewJobs := [⟨"j3", ⟨true, some "t3"⟩, [], .PENDING⟩]
    promptTemplates := [], reviewResults := [], toolConfigs := [] }

/-- An empty database: no job exists. -/
def dbEmpty : DB :=
  { reviewJobs := [], promptTemplates := [], reviewResults := [], toolConfigs := [] }

/-- A job with a custom template that names a tool configuration which the
repository fails to fetch. -/
def dbToolThrow : DB :=
  { reviewJobs := [⟨"j5", ⟨true, some "t5"⟩, [], .PENDING⟩]
    promptTemplates := [⟨"t5", "P5", some "tc5"⟩]
    reviewResults := [], toolConfigs := [] }

/-- A review result for job `j6` with a parent check item and a resolvable
source reference. -/
def resultJ6 : ReviewResult :=
  { reviewJobId := "j6"
    checkList := ⟨"c1", "Check one", some "desc", some ⟨"Parent"⟩⟩
    result := some "fail"
    userOverride := false
    explanation := some "why"
    extractedText := some "text"
    confidenceScore := some (9 / 10 : Rat)
    userComment := none
    sourceReferences := .jarr [.jobj [("documentId", .jstr "d1"), ("pageNumber", .jnum 3)]] }

/-- A job with one document, one review result and the default prompt. -/
def dbResults : DB :=
  { reviewJobs := [⟨"j6", ⟨true, none⟩, [⟨"d1", "file.pdf"⟩], .PENDING⟩]
    promptTemplates := []
    reviewResults := [resultJ6, { resultJ6 with reviewJobId := "other" }]
    toolConfigs := [] }

/-- The enriched form of `resultJ6` after source-reference resolution. -/
def enrichedJ6 : EnrichedReviewResult :=
  { checkList := ⟨"Check one", some "desc", some "Parent"⟩
    result := some "fail"
    userOverride := false
    explanation := some "why"
    extractedText := some "text"
    confidenceScore := some (9 / 10 : Rat)
    userComment := none
    sourceReferences := [⟨"file.pdf", some (.jnum 3)⟩] }

/-- The result of running the handler on `dbResults` for job `j6`. -/
def resC6 : PreGenerateNextActionResult :=
  { shouldGenerate := true
    promptTemplate := some ⟨DEFAULT_NEXT_ACTION_PROMPT⟩
    templateData := some ⟨[enrichedJ6]⟩
    toolConfiguration := none, message := none }

/-! ## Helper lemmas -/

theorem mapExcept_ok_length {α β ε : Type} {f : α → Except ε β} {xs : List α}
    {ys : List β} (h : mapExcept f xs = .ok ys) : ys.length = xs.length := by
  induction xs generalizing ys with
  | nil =>
    unfold mapExcept at h
    injection h with h
    subst h
    rfl
  | cons x xs ih =>
    unfold mapExcept at h
    cases hf : f x with
    | error e => rw [hf] at h; cases h
    | ok y =>
      rw [hf] at h
      cases hm : mapExcept f xs with
      | error e => rw [hm] at h; cases h
      | ok ys' =>
        rw [hm] at h
        injection h with h
        subst h
        simp [ih hm]

theorem mapExcept_ok_get {α β ε : Type} {f : α → Except ε β} {xs : List α}
    {ys : List β} (h : mapExcept f xs = .ok ys) (i : Nat) (hi : i < xs.length)
    (hi' : i < ys.length) : f (xs.get ⟨i, hi⟩) = .ok (ys.get ⟨i, hi'⟩) := by
  induction xs generalizing ys i with
  | nil => exact absurd hi (by simp)
  | cons x xs ih =>
    unfold mapExcept at h
    cases hf : f x with
    | error e => rw [hf] at h; cases h
    | ok y =>
      rw [hf] at h
      cases hm : mapExcept f xs with
      | error e => rw [hm] at h; cases h
      | ok ys' =>
        rw [hm] at h
        injection h with h
        subst h
        cases i with
        | zero => simpa using hf
        | succ n => exact ih hm n (by simpa using hi) (by simpa using hi')

theorem enrichResult_ok_fields {parse : String → Option JsonValue}
    {documents : List Document} {item : ReviewResult} {e : EnrichedReviewResult}
    (h : enrichResult parse documents item = .ok e) :
    e.checkList.name = item.checkList.name ∧
    e.checkList.description = item.checkList.description ∧
    e.checkList.parentName = item.checkList.parent.map DBParent.name ∧
    e.result = item.result ∧
    e.userOverride = item.userOverride ∧
    e.explanation = item.explanation ∧
    e.extractedText = item.extractedText ∧
    e.confidenceScore = item.confidenceScore ∧
    e.userComment = item.userComment := by
  unfold enrichResult at h
  cases hr : resolveSourceReferences parse documents item.sourceReferences with
  | error e' => rw [hr] at h; cases h
  | ok refs =>
    rw [hr] at h
    injection h with h
    subst h
    exact ⟨rfl, rfl, rfl, rfl, rfl, rfl, rfl, rfl, rfl⟩

theorem successAfterTemplate_ok {parse : String → Option JsonValue} {db : DB}
    {rid : String} {documents : List Document} {p : String} {tc : Option String}
    {res : PreGenerateNextActionResult}
    (h : successAfterTemplate parse db rid documents p tc = .ok res) :
    ∃ l, mapExcept (enrichResult parse documents) (findResults db rid) = .ok l ∧
      res = { shouldGenerate := true
              promptTemplate := some { prompt := p }
              templateData := some { allResults := l }
              toolConfiguration := toolConfigOutcome db tc
              message := none } := by
  unfold successAfterTemplate at h
  cases hm : mapExcept (enrichResult parse documents) (findResults db rid) with
  | error e => rw [hm] at h; cases h
  | ok l =>
    rw [hm] at h
    injection h with h
    exact ⟨l, rfl, h.symm⟩

theorem successAfterTemplate_ne_disabled {parse : String → Option JsonValue}
    {db : DB} {rid : String} {documents : List Document} {p : String}
    {tc : Option String} :
    successAfterTemplate parse db rid documents p tc ≠ .ok disabledResult := by
  intro h
  obtain ⟨l, -, hres⟩ := successAfterTemplate_ok h
  have hsg : disabledResult.shouldGenerate = true := by rw [hres]
  simp [disabledResult] at hsg

theorem preGenerate_disabled {parse : String → Option JsonValue} {db : DB}
    {params : PreGenerateNextActionParams} {job : ReviewJob}
    (hj : findJob db params.reviewJobId = some job)
    (hflag : job.checkListSet.enableNextAction = false) :
    preGenerateNextAction parse db params =
      (.ok disabledResult, [⟨params.reviewJobId, .SKIPPED⟩]) := by
  unfold preGenerateNextAction
  simp [hj, hflag]

theorem preGenerate_enabled {parse : String → Option JsonValue} {db : DB}
    {params : PreGenerateNextActionParams} {job : ReviewJob}
    (hj : findJob db params.reviewJobId = some job)
    (hflag : job.checkListSet.enableNextAction = true) :
    preGenerateNextAction parse db params =
      afterEnabled parse db params.reviewJobId job := by
  unfold preGenerateNextAction
  simp [hj, hflag]

theorem afterEnabled_snd (parse : String → Option JsonValue) (db : DB)
    (rid : String) (job : ReviewJob) :
    ∃ rest, (afterEnabled parse db rid job).2 = ⟨rid, .PROCESSING⟩ :: rest := by
  unfold afterEnabled
  cases hnat : job.checkListSet.nextActionTemplateId with
  | none => exact ⟨[], rfl⟩
  | some tid =>
    dsimp only
    by_cases htid : tid = ""
    · rw [if_pos htid]
      exact ⟨[], rfl⟩
    · rw [if_neg htid]
      cases ht : findTemplate db tid with
      | none => exact ⟨[⟨rid, .FAILED⟩], rfl⟩
      | some template => exact ⟨[], rfl⟩

theorem afterEnabled_fst_ne_disabled (parse : String → Option JsonValue)
    (db : DB) (rid : String) (job : ReviewJob) :
    (afterEnabled parse db rid job).1 ≠ .ok disabledResult := by
  unfold afterEnabled
  cases hnat : job.checkListSet.nextActionTemplateId with
  | none => exact successAfterTemplate_ne_disabled
  | some tid =>
    dsimp only
    by_cases htid : tid = ""
    · rw [if_pos htid]
      exact successAfterTemplate_ne_disabled
    · rw [if_neg htid]
      cases ht : findTemplate db tid with
      | none =>
        intro h
        injection h with h
        have hm : templateNotFoundResult.message = disabledResult.message := by
          rw [h]
        simp [templateNotFoundResult, disabledResult] at hm
      | some template => exact successAfterTemplate_ne_disabled

theorem objFilename_no_docId {docs : List Document}
    {fields : List (String × JsonValue)}
    (h : getField fields "documentId" = none) :
    objFilename docs fields = "Unknown" := by
  unfold objFilename
  rw [h]

theorem objFilename_mapped {docs : List Document}
    {fields : List (String × JsonValue)} {s f : String}
    (h : getField fields "documentId" = some (.jstr s)) (hs : s ≠ "")
    (hf : docMapGet docs s = some f) (hf' : f ≠ "") :
    objFilename docs fields = f := by
  simp [objFilename, h, jsTruthy, hs, hf, hf']

theorem objFilename_unmapped {docs : List Document}
    {fields : List (String × JsonValue)} {s : String}
    (h : getField fields "documentId" = some (.jstr s))
    (hf : docMapGet docs s = none) :
    objFilename docs fields = "Unknown" := by
  by_cases hs : s = ""
  · subst hs
    simp [objFilename, h, jsTruthy]
  · simp [objFilename, h, jsTruthy, hs, hf]

theorem objFilename_falsy {docs : List Document}
    {fields : List (String × JsonValue)} {d : JsonValue}
    (h : getField fields "documentId" = some d) (hd : jsTruthy d = false) :
    objFilename docs fields = "Unknown" := by
  simp [objFilename, h, hd]

theorem objFilename_nonstr {docs : List Document}
    {fields : List (String × JsonValue)} {d : JsonValue}
    (h : getField fields "documentId" = some d) (hd : d.isStr = false) :
    objFilename docs fields = "Unknown" := by
  cases d with
  | jstr s => simp [JsonValue.isStr] at hd
  | jnull => simp [objFilename, h, jsTruthy]
  | jbool b => cases b <;> simp [objFilename, h, jsTruthy]
  | jnum q => by_cases hq : q = 0 <;> simp [objFilename, h, jsTruthy, hq]
  | jarr l => simp [objFilename, h, jsTruthy]
  | jobj o => simp [objFilename, h, jsTruthy]

theorem objFilename_mapped_empty {docs : List Document}
    {fields : List (String × JsonValue)} {s : String}
    (h : getField fields "documentId" = some (.jstr s))
    (hm : docMapGet docs s = some "") :
    objFilename docs fields = "Unknown" := by
  by_cases hs : s = ""
  · subst hs
    simp [objFilename, h, jsTruthy]
  · simp [objFilename, h, jsTruthy, hs, hm]

theorem refPageNumber_absent {fields : List (String × JsonValue)}
    (h : getField fields "pageNumber" = none) :
    refPageNumber (.jobj fields) = none := by
  simp [refPageNumber, h]

theorem resolveRef_nonobj (docs : List Document) {v : JsonValue}
    (hn : v.isNull = false) (ho : v.isObj = false) :
    resolveRef docs v = .ok ⟨"Unknown", none⟩ := by
  cases v with
  | jnull => simp [JsonValue.isNull] at hn
  | jobj fields => simp [JsonValue.isObj] at ho
  | jbool b => rfl
  | jnum q => rfl
  | jstr s => rfl
  | jarr xs => rfl

theorem resolveRef_obj (docs : List Document)
    (fields : List (String × JsonValue)) :
    resolveRef docs (.jobj fields) =
      .ok ⟨objFilename docs fields, refPageNumber (.jobj fields)⟩ := rfl

theorem resolveRef_nonnull_ok (docs : List Document) {v : JsonValue}
    (h : v.isNull = false) : ∃ y, resolveRef docs v = .ok y := by
  cases v with
  | jnull => simp [JsonValue.isNull] at h
  | jbool b => exact ⟨_, rfl⟩
  | jnum q => exact ⟨_, rfl⟩
  | jstr s => exact ⟨_, rfl⟩
  | jarr xs => exact ⟨_, rfl⟩
  | jobj fields => exact ⟨_, rfl⟩

theorem mapExcept_all_ok {α β ε : Type} {f : α → Except ε β} {xs : List α}
    (h : ∀ x ∈ xs, ∃ y, f x = .ok y) : ∃ ys, mapExcept f xs = .ok ys := by
  induction xs with
  | nil => exact ⟨[], rfl⟩
  | cons x xs ih =>
    obtain ⟨y, hy⟩ := h x (by simp)
    obtain ⟨ys, hys⟩ := ih (fun a ha => h a (by simp [ha]))
    refine ⟨y :: ys, ?_⟩
    unfold mapExcept
    rw [hy, hys]

theorem resolve_arr (parse : String → Option JsonValue) (docs : List Document)
    (xs : List JsonValue) :
    resolveSourceReferences parse docs (.jarr xs) =
      mapExcept (resolveRef docs) xs := rfl

/-! ## Claims -/

/-- C1: for an existing review job, the handler returns
`{ shouldGenerate := false, message := "Next Action is disabled" }` and
issues exactly the `SKIPPED` status write if and only if the job's
check-list set has `enableNextAction = false`; when the flag is true the
first write is the `PROCESSING` status update and the run does not produce
the disabled result. -/
theorem C1_disabled_iff (parse : String → Option JsonValue) (db : DB)
    (params : PreGenerateNextActionParams) (job : ReviewJob)
    (hj : findJob db params.reviewJobId = some job) :
    (preGenerateNextAction parse db params =
        (.ok disabledResult, [⟨params.reviewJobId, .SKIPPED⟩])
      ↔ job.checkListSet.enableNextAction = false)
    ∧ (job.checkListSet.enableNextAction = true →
        ∃ rest,
          (preGenerateNextAction parse db params).2 =
            ⟨params.reviewJobId, .PROCESSING⟩ :: rest ∧
          (preGenerateNextAction parse db params).1 ≠ .ok disabledResult) := by
  cases hflag : job.checkListSet.enableNextAction with
  | false =>
    refine ⟨⟨fun _ => rfl, fun _ => preGenerate_disabled hj hflag⟩, ?_⟩
    intro htrue
    exact absurd htrue (by simp [hflag])
  | true =>
    have hrun := @preGenerate_enabled parse db params job hj hflag
    obtain ⟨rest, hrest⟩ := afterEnabled_snd parse db params.reviewJobId job
    constructor
    · constructor
      · intro h
        exfalso
        have h2 := congrArg Prod.snd h
        rw [hrun] at h2
        rw [hrest] at h2
        simp at h2
      · intro hfalse
        exact absurd hfalse (by simp [hflag])
    · intro _
      refine ⟨rest, ?_, ?_⟩
      · rw [hrun]
        exact hrest
      · rw [hrun]
        exact afterEnabled_fst_ne_disabled parse db params.reviewJobId job

/-- C1 witness: on a concrete database whose job has the flag off, the
handler returns the disabled result and the single `SKIPPED` write. -/
theorem C1_disabled_iff_witness :
    preGenerateNextAction parseNone dbDisabled ⟨"j1", none⟩ =
      (.ok disabledResult, [⟨"j1", .SKIPPED⟩]) :=
  (C1_disabled_iff parseNone dbDisabled ⟨"j1", none⟩
    ⟨"j1", ⟨false, none⟩, [], .PENDING⟩ rfl).1.mpr rfl

/-- C2 (amended): for an existing review job with `enableNextAction = true`
and a non-null, NON-EMPTY `nextActionTemplateId`, if no prompt template with
that id exists then the handler writes `PROCESSING` and then `FAILED` and
returns `{ shouldGenerate := false, message := "Prompt template not found" }`
with no `promptTemplate`, `templateData` or `toolConfiguration`.  (The claim
as stated, without the non-empty proviso, is refuted by
`C2_counterexample`: `if (nextActionTemplateId)` is a truthiness test, so an
empty-string id silently falls back to the default prompt.) -/
theorem C2_template_not_found (parse : String → Option JsonValue) (db : DB)
    (params : PreGenerateNextActionParams) (job : ReviewJob) (tid : String)
    (hj : findJob db params.reviewJobId = some job)
    (hflag : job.checkListSet.enableNextAction = true)
    (hnat : job.checkListSet.nextActionTemplateId = some tid)
    (htid : tid ≠ "")
    (ht : findTemplate db tid = none) :
    preGenerateNextAction parse db params =
      (.ok templateNotFoundResult,
       [⟨params.reviewJobId, .PROCESSING⟩, ⟨params.reviewJobId, .FAILED⟩]) := by
  rw [preGenerate_enabled hj hflag]
  unfold afterEnabled
  rw [hnat]
  dsimp only
  rw [if_neg htid, ht]

/-- C2 witness: on a concrete database whose enabled job names a template
id that no template row carries, the handler fails as described. -/
theorem C2_template_not_found_witness :
    preGenerateNextAction parseNone dbDangling ⟨"j3", none⟩ =
      (.ok templateNotFoundResult,
       [⟨"j3", .PROCESSING⟩, ⟨"j3", .FAILED⟩]) :=
  C2_template_not_found parseNone dbDangling ⟨"j3", none⟩
    ⟨"j3", ⟨true, some "t3"⟩, [], .PENDING⟩ "t3" rfl rfl rfl (by decide) rfl

/-- C2 counterexample: a job with `enableNextAction = true` and the non-null
template id `""`, for which no template exists — the claim demands the
`FAILED` write and the `Prompt template not found` result, but the handler
succeeds with the default prompt and writes only `PROCESSING`. -/
theorem C2_counterexample :
    findJob dbEmptyTidNoTpl "j2a" =
      some ⟨"j2a", ⟨true, some ""⟩, [], .PENDING⟩ ∧
    findTemplate dbEmptyTidNoTpl "" = none ∧
    preGenerateNextAction parseNone dbEmptyTidNoTpl ⟨"j2a", none⟩ =
      (.ok { shouldGenerate := true
             promptTemplate := some ⟨DEFAULT_NEXT_ACTION_PROMPT⟩
             templateData := some ⟨[]⟩
             toolConfiguration := none
             message := none },
       [⟨"j2a", .PROCESSING⟩]) :=
  ⟨rfl, rfl, rfl⟩

/-- C3: when no review job with the requested id exists, the handler
returns `Review job not found` with `shouldGenerate = false` and issues no
database write, leaving the database state unchanged. -/
theorem C3_job_not_found (parse : String → Option JsonValue) (db : DB)
    (params : PreGenerateNextActionParams)
    (hj : findJob db params.reviewJobId = none) :
    preGenerateNextAction parse db params = (.ok notFoundResult, []) ∧
    applyWrites db (preGenerateNextAction parse db params).2 = db := by
  unfold preGenerateNextAction
  rw [hj]
  exact ⟨rfl, rfl⟩

/-- C3 witness: on the empty database the handler returns the not-found
result with no writes. -/
theorem C3_job_not_found_witness :
    preGenerateNextAction parseNone dbEmpty ⟨"x", none⟩ =
      (.ok notFoundResult, []) :=
  (C3_job_not_found parseNone dbEmpty ⟨"x", none⟩ rfl).1

/-- C4 (amended): on every run returning `shouldGenerate = true`, the
returned `promptTemplate.prompt` equals the stored prompt of the template
named by the job's `nextActionTemplateId` when that id is non-null and
NON-EMPTY (and the template exists — a dangling id never reaches a success
result), and equals the built-in `DEFAULT_NEXT_ACTION_PROMPT` when the id
is null or the empty string.  (The claim as stated, which requires the
stored prompt for every non-null id, is refuted by `C4_counterexample`.) -/
theorem C4_prompt_source (parse : String → Option JsonValue) (db : DB)
    (params : PreGenerateNextActionParams) (job : ReviewJob)
    (res : PreGenerateNextActionResult) (ws : List JobWrite)
    (hj : findJob db params.reviewJobId = some job)
    (hrun : preGenerateNextAction parse db params = (.ok res, ws))
    (hsg : res.shouldGenerate = true) :
    (job.checkListSet.nextActionTemplateId = none →
      res.promptTemplate = some ⟨DEFAULT_NEXT_ACTION_PROMPT⟩)
    ∧ (job.checkListSet.nextActionTemplateId = some "" →
      res.promptTemplate = some ⟨DEFAULT_NEXT_ACTION_PROMPT⟩)
    ∧ (∀ tid, job.checkListSet.nextActionTemplateId = some tid → tid ≠ "" →
      ∃ tpl, findTemplate db tid = some tpl ∧
        res.promptTemplate = some ⟨tpl.prompt⟩) := by
  cases hflag : job.checkListSet.enableNextAction with
  | false =>
    rw [preGenerate_disabled hj hflag] at hrun
    injection hrun with h1 h2
    injection h1 with h1
    rw [← h1] at hsg
    simp [disabledResult] at hsg
  | true =>
    rw [preGenerate_enabled hj hflag] at hrun
    unfold afterEnabled at hrun
    cases hnat : job.checkListSet.nextActionTemplateId with
    | none =>
      rw [hnat] at hrun
      dsimp only at hrun
      injection hrun with h1 h2
      obtain ⟨l, -, hres⟩ := successAfterTemplate_ok h1
      subst hres
      refine ⟨fun _ => rfl, fun h => ?_, fun tid h _ => ?_⟩
      · cases h
      · cases h
    | some tid =>
      rw [hnat] at hrun
      dsimp only at hrun
      by_cases htid : tid = ""
      · rw [if_pos htid] at hrun
        injection hrun with h1 h2
        obtain ⟨l, -, hres⟩ := successAfterTemplate_ok h1
        subst hres
        subst htid
        refine ⟨fun h => ?_, fun _ => rfl, fun tid' h htid' => ?_⟩
        · cases h
        · injection h with h
          exact absurd h.symm htid'
      · rw [if_neg htid] at hrun
        cases ht : findTemplate db tid with
        | none =>
          rw [ht] at hrun
          injection hrun with h1 h2
          injection h1 with h1
          rw [← h1] at hsg
          simp [templateNotFoundResult] at hsg
        | some tpl =>
          rw [ht] at hrun
          injection hrun with h1 h2
          obtain ⟨l, -, hres⟩ := successAfterTemplate_ok h1
          subst hres
          refine ⟨fun h => ?_, fun h => ?_, fun tid' h _ => ?_⟩
          · cases h
          · injection h with h
            exact absurd h htid
          · injection h with h
            subst h
            exact ⟨tpl, ht, rfl⟩

/-- C4 witness: on a concrete database whose enabled job names the existing
template `t4`, the success result carries that template's stored prompt. -/
theorem C4_prompt_source_witness :
    ∃ tpl, findTemplate dbCustom "t4" = some tpl ∧
      resC4.promptTemplate = some ⟨tpl.prompt⟩ :=
  (C4_prompt_source parseNone dbCustom ⟨"j4", none⟩
      ⟨"j4", ⟨true, some "t4"⟩, [], .PENDING⟩ resC4 [⟨"j4", .PROCESSING⟩]
      rfl rfl rfl).2.2 "t4" rfl (by decide)

/-- C4 counterexample: a job whose non-null `nextActionTemplateId` is `""`
while a template with id `""` and stored prompt `"CUSTOM"` exists — the
claim demands the stored prompt, but the handler returns the built-in
default. -/
theorem C4_counterexample :
    findJob dbEmptyTid "j2" = some ⟨"j2", ⟨true, some ""⟩, [], .PENDING⟩ ∧
    findTemplate dbEmptyTid "" = some ⟨"", "CUSTOM", none⟩ ∧
    preGenerateNextAction parseNone dbEmptyTid ⟨"j2", none⟩ =
      (.ok { shouldGenerate := true
             promptTemplate := some ⟨DEFAULT_NEXT_ACTION_PROMPT⟩
             templateData := some ⟨[]⟩
             toolConfiguration := none
             message := none },
       [⟨"j2", .PROCESSING⟩]) ∧
    DEFAULT_NEXT_ACTION_PROMPT ≠ "CUSTOM" :=
  ⟨rfl, rfl, rfl, by decide⟩

/-- C5: when the custom template resolves a `toolConfigurationId` but the
tool-configuration fetch throws, the handler still returns
`shouldGenerate = true` with `promptTemplate` and `templateData` populated
and `toolConfiguration` undefined, and the write list is exactly the single
`PROCESSING` update — the fetch failure adds no status write. -/
theorem C5_tool_fetch_throw (parse : String → Option JsonValue) (db : DB)
    (params : PreGenerateNextActionParams) (job : ReviewJob) (tid : String)
    (tpl : PromptTemplate) (tcid : String) (l : List EnrichedReviewResult)
    (hj : findJob db params.reviewJobId = some job)
    (hflag : job.checkListSet.enableNextAction = true)
    (hnat : job.checkListSet.nextActionTemplateId = some tid)
    (htid : tid ≠ "")
    (ht : findTemplate db tid = some tpl)
    (htc : tpl.toolConfigurationId = some tcid)
    (hthrow : findToolConfig db tcid = none)
    (hl : mapExcept (enrichResult parse job.documents)
            (findResults db params.reviewJobId) = .ok l) :
    preGenerateNextAction parse db params =
      (.ok { shouldGenerate := true
             promptTemplate := some ⟨tpl.prompt⟩
             templateData := some ⟨l⟩
             toolConfiguration := none
             message := none },
       [⟨params.reviewJobId, .PROCESSING⟩]) := by
  rw [preGenerate_enabled hj hflag]
  unfold afterEnabled
  rw [hnat]
  dsimp only
  rw [if_neg htid, ht]
  dsimp only
  unfold successAfterTemplate
  rw [hl]
  dsimp only
  unfold toolConfigOutcome
  rw [htc]
  dsimp only
  by_cases htcid : tcid = ""
  · rw [if_pos htcid]
  · rw [if_neg htcid]
    rw [hthrow]

/-- C5 witness: concrete database whose template `t5` names the tool
configuration `tc5`, which `findById` fails to deliver. -/
theorem C5_tool_fetch_throw_witness :
    preGenerateNextAction parseNone dbToolThrow ⟨"j5", none⟩ =
      (.ok { shouldGenerate := true
             promptTemplate := some ⟨"P5"⟩
             templateData := some ⟨[]⟩
             toolConfiguration := none
             message := none },
       [⟨"j5", .PROCESSING⟩]) :=
  C5_tool_fetch_throw parseNone dbToolThrow ⟨"j5", none⟩
    ⟨"j5", ⟨true, some "t5"⟩, [], .PENDING⟩ "t5" ⟨"t5", "P5", some "tc5"⟩
    "tc5" [] rfl rfl rfl (by decide) rfl rfl rfl rfl

/-- C6: whenever a run returns a `templateData`, its `allResults` has
exactly one element per review result fetched for the job, in the same
order, and each element carries the source row's check-list name and
description, the parent item's name (or `null` when there is no parent),
and its `result`, `userOverride`, `explanation`, `extractedText`,
`confidenceScore` and `userComment` fields unchanged. -/
theorem C6_allResults_faithful (parse : String → Option JsonValue) (db : DB)
    (params : PreGenerateNextActionParams) (job : ReviewJob)
    (res : PreGenerateNextActionResult) (ws : List JobWrite) (td : TemplateData)
    (hj : findJob db params.reviewJobId = some job)
    (hrun : preGenerateNextAction parse db params = (.ok res, ws))
    (htd : res.templateData = some td) :
    td.allResults.length = (findResults db params.reviewJobId).length ∧
    ∀ i (hi : i < (findResults db params.reviewJobId).length)
      (hi' : i < td.allResults.length),
      (td.allResults.get ⟨i, hi'⟩).checkList.name =
        ((findResults db params.reviewJobId).get ⟨i, hi⟩).checkList.name ∧
      (td.allResults.get ⟨i, hi'⟩).checkList.description =
        ((findResults db params.reviewJobId).get ⟨i, hi⟩).checkList.description ∧
      (td.allResults.get ⟨i, hi'⟩).checkList.parentName =
        (((findResults db params.reviewJobId).get ⟨i, hi⟩).checkList.parent).map
          DBParent.name ∧
      (td.allResults.get ⟨i, hi'⟩).result =
        ((findResults db params.reviewJobId).get ⟨i, hi⟩).result ∧
      (td.allResults.get ⟨i, hi'⟩).userOverride =
        ((findResults db params.reviewJobId).get ⟨i, hi⟩).userOverride ∧
      (td.allResults.get ⟨i, hi'⟩).explanation =
        ((findResults db params.reviewJobId).get ⟨i, hi⟩).explanation ∧
      (td.allResults.get ⟨i, hi'⟩).extractedText =
        ((findResults db params.reviewJobId).get ⟨i, hi⟩).extractedText ∧
      (td.allResults.get ⟨i, hi'⟩).confidenceScore =
        ((findResults db params.reviewJobId).get ⟨i, hi⟩).confidenceScore ∧
      (td.allResults.get ⟨i, hi'⟩).userComment =
        ((findResults db params.reviewJobId).get ⟨i, hi⟩).userComment := by
  have key : mapExcept (enrichResult parse job.documents)
      (findResults db params.reviewJobId) = .ok td.allResults := by
    cases hflag : job.checkListSet.enableNextAction with
    | false =>
      rw [preGenerate_disabled hj hflag] at hrun
      injection hrun with h1 h2
      injection h1 with h1
      rw [← h1] at htd
      simp [disabledResult] at htd
    | true =>
      rw [preGenerate_enabled hj hflag] at hrun
      unfold afterEnabled at hrun
      cases hnat : job.checkListSet.nextActionTemplateId with
      | none =>
        rw [hnat] at hrun
        dsimp only at hrun
        injection hrun with h1 h2
        obtain ⟨l, hm, hres⟩ := successAfterTemplate_ok h1
        subst hres
        simp only at htd
        injection htd with htd
        rw [← htd]
        exact hm
      | some tid =>
        rw [hnat] at hrun
        dsimp only at hrun
        by_cases htid : tid = ""
        · rw [if_pos htid] at hrun
          injection hrun with h1 h2
          obtain ⟨l, hm, hres⟩ := successAfterTemplate_ok h1
          subst hres
          simp only at htd
          injection htd with htd
          rw [← htd]
          exact hm
        · rw [if_neg htid] at hrun
          cases ht : findTemplate db tid with
          | none =>
            rw [ht] at hrun
            injection hrun with h1 h2
            injection h1 with h1
            rw [← h1] at htd
            simp [templateNotFoundResult] at htd
          | some tpl =>
            rw [ht] at hrun
            injection hrun with h1 h2
            obtain ⟨l, hm, hres⟩ := successAfterTemplate_ok h1
            subst hres
            simp only at htd
            injection htd with htd
            rw [← htd]
            exact hm
  refine ⟨mapExcept_ok_length key, fun i hi hi' => ?_⟩
  have hget := mapExcept_ok_get key i hi hi'
  exact enrichResult_ok_fields hget

/-- C6 witness: on a concrete database with one matching review result, the
returned `allResults` has the same length as the fetched result list. -/
theorem C6_allResults_faithful_witness :
    (⟨[enrichedJ6]⟩ : TemplateData).allResults.length =
      (findResults dbResults "j6").length :=
  (C6_allResults_faithful parseNone dbResults ⟨"j6", none⟩
      ⟨"j6", ⟨true, none⟩, [⟨"d1", "file.pdf"⟩], .PENDING⟩ resC6
      [⟨"j6", .PROCESSING⟩] ⟨[enrichedJ6]⟩ rfl rfl rfl).1

/-- C7: with the database (and the `JSON.parse` oracle) as explicit inputs,
the handler is a pure function: two runs on equal parameters produce the
same result and the same ordered sequence of status writes. -/
theorem C7_deterministic (parse : String → Option JsonValue) (db : DB)
    (params1 params2 : PreGenerateNextActionParams) (h : params1 = params2) :
    (preGenerateNextAction parse db params1).1 =
      (preGenerateNextAction parse db params2).1 ∧
    (preGenerateNextAction parse db params1).2 =
      (preGenerateNextAction parse db params2).2 := by
  subst h
  exact ⟨rfl, rfl⟩

/-- C7 witness: the two projections agree on a concrete input. -/
theorem C7_deterministic_witness :
    (preGenerateNextAction parseNone dbEmpty ⟨"x", none⟩).1 =
      (preGenerateNextAction parseNone dbEmpty ⟨"x", none⟩).1 ∧
    (preGenerateNextAction parseNone dbEmpty ⟨"x", none⟩).2 =
      (preGenerateNextAction parseNone dbEmpty ⟨"x", none⟩).2 :=
  C7_deterministic parseNone dbEmpty ⟨"x", none⟩ ⟨"x", none⟩ rfl

/-- C8 (amended): `resolveSourceReferences` never throws EXCEPT when the
(parsed) array contains a `null` element, where the element's property
access throws a `TypeError`; for every other input it returns an array —
`[]` for `null`/`undefined`, for a string that is not valid JSON, and for
any parsed value that is not an array; for each array element it returns
filename `"Unknown"` whenever `documentId` is absent or not in the job's
document map, and the mapped filename otherwise, EXCEPT that an
empty-string `documentId` and a filename stored as the empty string also
yield `"Unknown"`; and `pageNumber = null` whenever the element has no
`pageNumber`.  Each of the three capitalised exceptions is forced by
`C8_counterexample`; everything else is the claim as written.  Conjuncts,
in order: (1) every falsy input (which subsumes `null`/`undefined`) gives
`[]`; (2) a string whose parse throws gives `[]`; (3) a string parsing to a
non-array gives `[]`; (4) every non-string non-array value gives `[]`; (5)
a non-empty string parsing to an array behaves exactly like that array;
(6) an array all of whose elements are non-null resolves without throwing;
(7) a resolved array yields one entry per element, in order, where a
non-null non-object element gives `⟨"Unknown", null⟩`, and an object
element gives filename `"Unknown"` when `documentId` is absent, falsy
(hence when it is the empty string), a non-string (hence never a key of
the string-keyed map), an unmapped string, or a string mapped to the empty
filename, the mapped filename when it is a non-empty string mapped to a
non-empty filename, and `pageNumber = null` when the element has no
`pageNumber` field. -/
theorem C8_resolve_spec (parse : String → Option JsonValue)
    (docs : List Document) :
    (∀ refs, jsTruthy refs = false →
      resolveSourceReferences parse docs refs = .ok [])
    ∧ (∀ s, parse s = none →
      resolveSourceReferences parse docs (.jstr s) = .ok [])
    ∧ (∀ s v, parse s = some v → v.isArr = false →
      resolveSourceReferences parse docs (.jstr s) = .ok [])
    ∧ (∀ refs, refs.isStr = false → refs.isArr = false →
      resolveSourceReferences parse docs refs = .ok [])
    ∧ (∀ s xs, s ≠ "" → parse s = some (.jarr xs) →
      resolveSourceReferences parse docs (.jstr s) =
        resolveSourceReferences parse docs (.jarr xs))
    ∧ (∀ xs, (∀ v ∈ xs, v.isNull = false) →
      ∃ ys, resolveSourceReferences parse docs (.jarr xs) = .ok ys)
    ∧ (∀ xs ys, resolveSourceReferences parse docs (.jarr xs) = .ok ys →
      ys.length = xs.length ∧
      ∀ i (hi : i < xs.length) (hi' : i < ys.length),
        ((xs.get ⟨i, hi⟩).isNull = false → (xs.get ⟨i, hi⟩).isObj = false →
          ys.get ⟨i, hi'⟩ = ⟨"Unknown", none⟩) ∧
        ∀ fields, xs.get ⟨i, hi⟩ = .jobj fields →
          (getField fields "documentId" = none →
            (ys.get ⟨i, hi'⟩).filename = "Unknown") ∧
          (∀ d, getField fields "documentId" = some d → jsTruthy d = false →
            (ys.get ⟨i, hi'⟩).filename = "Unknown") ∧
          (∀ d, getField fields "documentId" = some d → d.isStr = false →
            (ys.get ⟨i, hi'⟩).filename = "Unknown") ∧
          (∀ s, getField fields "documentId" = some (.jstr s) →
            docMapGet docs s = none →
            (ys.get ⟨i, hi'⟩).filename = "Unknown") ∧
          (∀ s, getField fields "documentId" = some (.jstr s) →
            docMapGet docs s = some "" →
            (ys.get ⟨i, hi'⟩).filename = "Unknown") ∧
          (∀ s f, getField fields "documentId" = some (.jstr s) → s ≠ "" →
            docMapGet docs s = some f → f ≠ "" →
            (ys.get ⟨i, hi'⟩).filename = f) ∧
          (getField fields "pageNumber" = none →
            (ys.get ⟨i, hi'⟩).pageNumber = none)) := by
  refine ⟨?_, ?_, ?_, ?_, ?_, ?_, ?_⟩
  · intro refs h
    unfold resolveSourceReferences
    rw [if_pos h]
  · intro s hp
    by_cases hs : s = ""
    · subst hs; rfl
    · unfold resolveSourceReferences
      rw [if_neg (by simp [jsTruthy, hs])]
      dsimp only
      rw [hp]
  · intro s v hp hv
    by_cases hs : s = ""
    · subst hs; rfl
    · unfold resolveSourceReferences
      rw [if_neg (by simp [jsTruthy, hs])]
      dsimp only
      rw [hp]
      cases v with
      | jarr xs => simp [JsonValue.isArr] at hv
      | jnull => rfl
      | jbool b => rfl
      | jnum q => rfl
      | jstr t => rfl
      | jobj fields => rfl
  · intro refs h1 h2
    cases hc : jsTruthy refs with
    | false =>
      unfold resolveSourceReferences
      rw [if_pos hc]
    | true =>
      unfold resolveSourceReferences
      rw [if_neg (by simp [hc])]
      cases refs with
      | jnull => simp [jsTruthy] at hc
      | jbool b => rfl
      | jnum q => rfl
      | jstr t => simp [JsonValue.isStr] at h1
      | jarr xs => simp [JsonValue.isArr] at h2
      | jobj fields => rfl
  · intro s xs hs hp
    unfold resolveSourceReferences
    rw [if_neg (by simp [jsTruthy, hs])]
    rw [if_neg (by simp [jsTruthy])]
    dsimp only
    rw [hp]
  · intro xs hnn
    rw [resolve_arr]
    exact mapExcept_all_ok (fun v hv => resolveRef_nonnull_ok docs (hnn v hv))
  · intro xs ys h
    rw [resolve_arr] at h
    refine ⟨mapExcept_ok_length h, fun i hi hi' => ?_⟩
    have hget := mapExcept_ok_get h i hi hi'
    constructor
    · intro hn ho
      rw [resolveRef_nonobj docs hn ho] at hget
      injection hget with hget
      exact hget.symm
    · intro fields hfld
      rw [hfld, resolveRef_obj] at hget
      injection hget with hget
      refine ⟨fun hd => ?_, fun d hd hdf => ?_, fun d hd hds => ?_,
              fun s hd hm => ?_, fun s hd hm => ?_, fun s f hd hs hm hf => ?_,
              fun hpn => ?_⟩
      · rw [← hget]
        exact objFilename_no_docId hd
      · rw [← hget]
        exact objFilename_falsy hd hdf
      · rw [← hget]
        exact objFilename_nonstr hd hds
      · rw [← hget]
        exact objFilename_unmapped hd hm
      · rw [← hget]
        exact objFilename_mapped_empty hd hm
      · rw [← hget]
        exact objFilename_mapped hd hs hm hf
      · rw [← hget]
        exact refPageNumber_absent hpn

/-- C8 witness: a string whose parse throws resolves to the empty list. -/
theorem C8_resolve_spec_witness :
    resolveSourceReferences parseNone [] (.jstr "oops") = .ok [] :=
  (C8_resolve_spec parseNone []).2.1 "oops" rfl

/-- C8 counterexample: the claim says the function is total and never
throws and that a `documentId` present in the job's document map yields the
mapped filename — but (i) an array containing `null` makes the element's
property access throw a `TypeError`; (ii) a document whose stored filename
is the empty string yields `"Unknown"`, not the mapped (empty) filename,
because of the `|| "Unknown"` fallback; and (iii) an empty-string
`documentId` yields `"Unknown"` even when `""` is a key of the document
map, because `ref.documentId ?` is a truthiness test. -/
theorem C8_counterexample :
    resolveSourceReferences parseNone [] (.jarr [.jnull]) =
      .error "TypeError" ∧
    docMapGet [⟨"d", ""⟩] "d" = some "" ∧
    resolveSourceReferences parseNone [⟨"d", ""⟩]
        (.jarr [.jobj [("documentId", .jstr "d")]]) =
      .ok [⟨"Unknown", none⟩] ∧
    "Unknown" ≠ "" ∧
    docMapGet [⟨"", "f.pdf"⟩] "" = some "f.pdf" ∧
    resolveSourceReferences parseNone [⟨"", "f.pdf"⟩]
        (.jarr [.jobj [("documentId", .jstr "")]]) =
      .ok [⟨"Unknown", none⟩] ∧
    "Unknown" ≠ "f.pdf" :=
  ⟨rfl, rfl, rfl, by decide, rfl, rfl, by decide⟩

/-- C9: every result the handler returns (without throwing) satisfies the
invariant: `shouldGenerate` is true iff `promptTemplate` and `templateData`
are both present, and whenever `shouldGenerate` is false a non-empty
`message` is present and `promptTemplate`, `templateData` and
`toolConfiguration` are all absent. -/
theorem C9_result_invariant (parse : String → Option JsonValue) (db : DB)
    (params : PreGenerateNextActionParams) (res : PreGenerateNextActionResult)
    (h : (preGenerateNextAction parse db params).1 = .ok res) :
    (res.shouldGenerate = true ↔
      (res.promptTemplate.isSome ∧ res.templateData.isSome))
    ∧ (res.shouldGenerate = false →
        (∃ m, res.message = some m ∧ m ≠ "") ∧
        res.promptTemplate = none ∧ res.templateData = none ∧
        res.toolConfiguration = none) := by
  cases hj : findJob db params.reviewJobId with
  | none =>
    unfold preGenerateNextAction at h
    rw [hj] at h
    injection h with h
    rw [← h]
    refine ⟨by simp [notFoundResult], fun _ => ?_⟩
    exact ⟨⟨"Review job not found", rfl, by decide⟩, rfl, rfl, rfl⟩
  | some job =>
    cases hflag : job.checkListSet.enableNextAction with
    | false =>
      rw [preGenerate_disabled hj hflag] at h
      injection h with h
      rw [← h]
      refine ⟨by simp [disabledResult], fun _ => ?_⟩
      exact ⟨⟨"Next Action is disabled", rfl, by decide⟩, rfl, rfl, rfl⟩
    | true =>
      rw [preGenerate_enabled hj hflag] at h
      unfold afterEnabled at h
      cases hnat : job.checkListSet.nextActionTemplateId with
      | none =>
        rw [hnat] at h
        dsimp only at h
        obtain ⟨l, -, hres⟩ := successAfterTemplate_ok h
        subst hres
        exact ⟨by simp, fun hfalse => by simp at hfalse⟩
      | some tid =>
        rw [hnat] at h
        dsimp only at h
        by_cases htid : tid = ""
        · rw [if_pos htid] at h
          obtain ⟨l, -, hres⟩ := successAfterTemplate_ok h
          subst hres
          exact ⟨by simp, fun hfalse => by simp at hfalse⟩
        · rw [if_neg htid] at h
          cases ht : findTemplate db tid with
          | none =>
            rw [ht] at h
            injection h with h
            rw [← h]
            refine ⟨by simp [templateNotFoundResult], fun _ => ?_⟩
            exact ⟨⟨"Prompt template not found", rfl, by decide⟩, rfl, rfl, rfl⟩
          | some tpl =>
            rw [ht] at h
            obtain ⟨l, -, hres⟩ := successAfterTemplate_ok h
            subst hres
            exact ⟨by simp, fun hfalse => by simp at hfalse⟩

/-- C9 witness: the invariant instantiated at the not-found result of a run
on the empty database. -/
theorem C9_result_invariant_witness :
    (notFoundResult.shouldGenerate = true ↔
      (notFoundResult.promptTemplate.isSome ∧
        notFoundResult.templateData.isSome))
    ∧ (notFoundResult.shouldGenerate = false →
        (∃ m, notFoundResult.message = some m ∧ m ≠ "") ∧
        notFoundResult.promptTemplate = none ∧
        notFoundResult.templateData = none ∧
        notFoundResult.toolConfiguration = none) :=
  C9_result_invariant parseNone dbEmpty ⟨"y", none⟩ notFoundResult rfl

/-- C10: `handleSubmit` sends `toolConfigurationId` to `onSave` only for the
`NEXT_ACTION` editor type — the selected id, or `null` when none is selected
— and sends `undefined` for the `CHECKLIST` and `REVIEW` types, whatever the
state holds. -/
theorem C10_handleSubmit_toolConfigurationId (st : EditorState) :
    (handleSubmit .NEXT_ACTION st).toolConfigurationId =
      some st.toolConfigurationId ∧
    (handleSubmit .CHECKLIST st).toolConfigurationId = none ∧
    (handleSubmit .REVIEW st).toolConfigurationId = none :=
  ⟨rfl, rfl, rfl⟩

end Rapid
